import Mathlib

/-
Verification development for `bot/anthropic_utils.py` of the
chatgpt_telegram_bot repository.

The adapter class `Claude` is embedded shallowly:

* `Turn` models one entry of `dialog_messages` (a dict with keys
  "user" and "bot").
* The remote service (`anthropic.AsyncAnthropic`) is an external
  collaborator; a call's behaviour is abstracted as an oracle indexed by
  the attempt number.  `ApiResult` models the outcome of one blocking
  `client.messages.create(...)` call: a successful response (answer text of
  `r.content[0].text` plus provider-reported usage counts), an
  `anthropic.APIStatusError` carrying its `status_code` (the code compares
  it against the literals '403' and '429', so the embedding carries the
  status code as a string), or any other raised exception, which the
  `except anthropic.APIStatusError` clause does not catch.
* The tokenizer (`tiktoken`) is an external collaborator; it is abstracted
  as a total lookup `encFor : String → String → Nat` mapping a model name
  to an encoding, i.e. a token-length function on strings.
* The mode configuration `config.chat_modes` is read-only lookup data
  supplied by a configuration collaborator; it is abstracted as a map
  `chat_modes : String → Option String` from a mode key to the mode's
  "prompt_start" string.
* The `while answer is None` retry loops are embedded as structurally
  recursive functions with explicit fuel; `fuelOut` marks a run that does
  not terminate within the given fuel.
-/

namespace AnthropicUtils

/-- One historical exchange of the dialog: the Python dict
`{"user": ..., "bot": ...}` stored in `dialog_messages`. -/
structure Turn where
  user : String
  bot : String
  deriving Repr, DecidableEq

/-- One entry of the assembled message list: the Python dict
`{"role": ..., "content": ...}` built by `_generate_prompt_messages`. -/
structure ChatMessage where
  role : String
  content : String
  deriving Repr, DecidableEq

/-- Placeholder turn used as the out-of-range default of list lookups in
statements. -/
def default_turn : Turn :=
  ⟨"", ""⟩

/-- Placeholder message entry used as the out-of-range default of list
lookups in statements. -/
def default_message : ChatMessage :=
  ⟨"", ""⟩

/-- Key/value pairs of a `ChatMessage`, in the order Python's
`message.items()` yields them for a dict built as
`{"role": r, "content": c}`. -/
def msg_items (m : ChatMessage) : List (String × String) :=
  [("role", m.role), ("content", m.content)]

/-- Decidable equality for `Except`, needed to evaluate concrete runs of
the token-accounting function. -/
instance {ε α : Type} [DecidableEq ε] [DecidableEq α] :
    DecidableEq (Except ε α) := fun a b =>
  match a, b with
  | .ok x, .ok y =>
    if h : x = y then .isTrue (by rw [h]) else .isFalse (by simp [h])
  | .error x, .error y =>
    if h : x = y then .isTrue (by rw [h]) else .isFalse (by simp [h])
  | .ok _, .error _ => .isFalse (by simp)
  | .error _, .ok _ => .isFalse (by simp)

/-- Exceptions the embedded code can raise.  Each constructor models one
`raise` site (or an uncaught propagated exception):
* `unsupportedMode` — `ValueError(f"Chat mode ... is not supported")`;
* `historyExhausted` — `ValueError("Dialog messages is reduced to zero, but
  still has too many tokens to make completion")`;
* `rateLimited` — the `ValueError` raised with the user-facing throttling
  message on status code '429';
* `unknownModelValue` — `ValueError(f"Unknown model: ...")`;
* `otherRaised e` — an exception from the remote client that is not an
  `anthropic.APIStatusError`, propagated unmodified (tagged by `e`);
* `unboundLocal` — Python `UnboundLocalError`: the final `yield` of
  `send_message_stream` reads `n_input_tokens` / `n_output_tokens` /
  `n_first_dialog_messages_removed`, which are assigned only inside the
  delta branches of the streaming loop;
* `attributeError` — Python `AttributeError`: `_postprocess_answer(None)`
  calls `None.strip()` when the model is not in the known set in
  `send_message_stream`. -/
inductive PyError where
  | unsupportedMode (mode : String)
  | historyExhausted
  | rateLimited
  | unknownModelValue (model : String)
  | otherRaised (e : String)
  | unboundLocal
  | attributeError
  deriving Repr, DecidableEq

/-- Outcome of one blocking `client.messages.create(...)` call. -/
inductive ApiResult where
  | ok (text : String) (input_tokens output_tokens : Nat)
  | statusErr (status_code : String)
  | otherErr (e : String)
  deriving Repr, DecidableEq

/-- The set of models accepted by `Claude.__init__` and tested by
`if self.model in {...}` inside both loops. -/
def known_claude_models : List String :=
  ["claude-3-opus-20240229", "claude-3-sonnet-20240229",
   "claude-3-5-sonnet-20240620"]

/-- Whether the first character list starts with the second. -/
def chars_start_with : List Char → List Char → Bool
  | _, [] => true
  | [], _ :: _ => false
  | a :: s, b :: t => a == b && chars_start_with s t

/-- Whether the second character list occurs inside the first. -/
def chars_have_infix : List Char → List Char → Bool
  | [], pat => pat.isEmpty
  | a :: rest, pat =>
    chars_start_with (a :: rest) pat || chars_have_infix rest pat

/-- Python's substring test `pat in s`, used as `'claude' in model`. -/
def str_contains (s pat : String) : Bool :=
  chars_have_infix s.data pat.data

/-- Model of `Claude._generate_prompt_messages`: for each turn of
`dialog_messages` append a user entry then an assistant entry, then append
the new `message` as a final user entry.  The `chat_mode` parameter is
present in the source and unused there as well. -/
def _generate_prompt_messages (message : String) (dialog_messages : List Turn)
    (chat_mode : String) : List ChatMessage :=
  (dialog_messages.foldl
    (fun ms d => ms ++ [⟨"user", d.user⟩, ⟨"assistant", d.bot⟩]) [])
    ++ [⟨"user", message⟩]

/-- The two message-list entries contributed by one history turn, used to
state the shape of the assembled message list. -/
def turn_messages (t : Turn) : List ChatMessage :=
  [⟨"user", t.user⟩, ⟨"assistant", t.bot⟩]

/-- Python's `str.strip()`: remove leading and trailing whitespace.
Implemented on the character list so that it is structurally recursive and
kernel-evaluable. -/
def py_strip (s : String) : String :=
  ⟨((s.data.dropWhile Char.isWhitespace).reverse.dropWhile
      Char.isWhitespace).reverse⟩

/-- Model of `Claude._postprocess_answer`: `answer.strip()`. -/
def _postprocess_answer (answer : String) : String :=
  py_strip answer

/-- Per-model token-overhead constants `(tokens_per_message, tokens_per_name)`
from the if/elif chain of `_count_tokens_from_messages`; `none` models the
final `else: raise ValueError(f"Unknown model: ...")`. -/
def token_overheads (model : String) : Option (Int × Int) :=
  if model = "gpt-3.5-turbo-16k" then some (4, -1)
  else if model = "gpt-3.5-turbo" then some (4, -1)
  else if model = "gpt-4" then some (3, 1)
  else if model = "gpt-4-1106-preview" then some (3, 1)
  else if model = "claude-3-opus-20240229" then some (3, 1)
  else if model = "claude-3-sonnet-20240229" then some (3, 1)
  else if model = "claude-3-5-sonnet-20240620" then some (3, 1)
  else none

/-- Encoding selection of `_count_tokens_from_messages`: when
`'claude' in model` the gpt-4 encoding is used, otherwise the model's own
encoding is looked up. -/
def selected_encoding (encFor : String → String → Nat) (model : String) :
    String → Nat :=
  if str_contains model "claude" then encFor "gpt-4" else encFor model

/-- Model of `Claude._count_tokens_from_messages`.  `encFor` abstracts
`tiktoken.encoding_for_model`: it maps a model name to a token-length
function on strings.  When `'claude' in model` the gpt-4 encoding is
selected.  The input count adds `tokens_per_message` per message, the
encoded length of every value of the message dict, `tokens_per_name` for a
"name" key, and a final `+ 2`; the output count is
`1 + len(encoding.encode(answer))`. -/
def _count_tokens_from_messages (encFor : String → String → Nat)
    (messages : List ChatMessage) (answer : String) (model : String) :
    Except PyError (Int × Int) :=
  let encLen : String → Nat := selected_encoding encFor model
  match token_overheads model with
  | none => .error (.unknownModelValue model)
  | some (tpm, tpn) =>
    let n_input_tokens : Int :=
      messages.foldl
        (fun acc m =>
          (msg_items m).foldl
            (fun a kv =>
              a + (encLen kv.2 : Int) + (if kv.1 = "name" then tpn else 0))
            (acc + tpm))
        0
      + 2
    .ok (n_input_tokens, 1 + (encLen answer : Int))

/-- One request to the remote completion service: the keyword arguments of
`client.messages.create(...)` that vary (model, the `system` instruction,
the assembled message list and the `stream` flag); the fixed
`ANTHROPIC_COMPLETION_OPTIONS` are constants. -/
structure CompletionRequest where
  model : String
  system : String
  messages : List ChatMessage
  stream : Bool
  deriving Repr, DecidableEq

/-- Request issued by one iteration of a loop, from the current
(possibly already shortened) dialog. -/
def mk_request (model sys message : String) (dialog : List Turn)
    (chat_mode : String) (stream : Bool) : CompletionRequest :=
  ⟨model, sys, _generate_prompt_messages message dialog chat_mode, stream⟩

/-- Result of a whole `send_message` call:
`ok answer (input,output) removed` models the normal return tuple,
`err e` a raised exception, `fuelOut` a run that does not terminate within
the fuel. -/
inductive SendOutcome where
  | ok (answer : String) (input_tokens output_tokens : Nat) (removed : Nat)
  | err (e : PyError)
  | fuelOut
  deriving Repr, DecidableEq

/-- The `while answer is None` loop of `Claude.send_message`.  `svc` gives
the outcome of the `attempt`-th remote call, `n_before` is
`n_dialog_messages_before`.  Returns the outcome together with the list of
requests actually issued to the remote service, in order.  Per caught
`anthropic.APIStatusError` the code first raises when the dialog is empty,
then drops the first dialog message on status code '403', raises on '429',
and otherwise falls through so that the loop re-runs with the dialog
unchanged. -/
def send_loop (model sys message chat_mode : String) (svc : Nat → ApiResult)
    (n_before : Nat) :
    Nat → Nat → List Turn → SendOutcome × List CompletionRequest
  | 0, _, _ => (.fuelOut, [])
  | fuel + 1, attempt, dialog =>
    if model ∈ known_claude_models then
      let req := mk_request model sys message dialog chat_mode false
      match svc attempt with
      | .ok text inTok outTok =>
        (.ok (_postprocess_answer text) inTok outTok
          (n_before - dialog.length), [req])
      | .otherErr e => (.err (.otherRaised e), [req])
      | .statusErr code =>
        if dialog.length = 0 then (.err .historyExhausted, [req])
        else if code = "403" then
          let rest := send_loop model sys message chat_mode svc n_before
            fuel (attempt + 1) (dialog.drop 1)
          (rest.1, req :: rest.2)
        else if code = "429" then (.err .rateLimited, [req])
        else
          let rest := send_loop model sys message chat_mode svc n_before
            fuel (attempt + 1) dialog
          (rest.1, req :: rest.2)
    else (.err (.unknownModelValue model), [])

/-- Model of `Claude.send_message`.  First the chat-mode precondition check,
then the retry loop; `n_dialog_messages_before` is the length of the
caller-supplied dialog. -/
def send_message (chat_modes : String → Option String) (model : String)
    (svc : Nat → ApiResult) (fuel : Nat) (message : String)
    (dialog_messages : List Turn) (chat_mode : String) :
    SendOutcome × List CompletionRequest :=
  match chat_modes chat_mode with
  | none => (.err (.unsupportedMode chat_mode), [])
  | some prompt =>
    send_loop model prompt message chat_mode svc dialog_messages.length
      fuel 0 dialog_messages

/-- Example mode configuration used by concrete witnesses: a single
configured mode "assistant". -/
def chat_modes_ex : String → Option String :=
  fun k => if k = "assistant" then some "You are an assistant." else none

/-- One event of the server-streamed response `r_gen`, discriminated by
`r_item.type` in `send_message_stream`:
`contentBlockDelta` carries `r_item.delta.text`, `messageDelta` carries
`r_item.usage.output_tokens`, and `otherItem` is any event type the loop
ignores. -/
inductive StreamItem where
  | contentBlockDelta (text : String)
  | messageDelta (output_tokens : Int)
  | otherItem (ty : String)
  deriving Repr, DecidableEq

/-- Exception raised by the remote client: an `anthropic.APIStatusError`
carrying its status code, or any other exception (tagged by a name). -/
inductive ApiFailure where
  | statusErr (status_code : String)
  | otherErr (e : String)
  deriving Repr, DecidableEq

/-- How the iteration over one streamed response ends after its items:
normally, or by an exception raised while awaiting the next item. -/
inductive AttemptEnd where
  | done
  | failed (f : ApiFailure)
  deriving Repr, DecidableEq

/-- Behaviour of one `client.messages.create(..., stream=True)` attempt:
either the `await create(...)` itself raises (before `answer = ""` runs),
or the stream opens and yields `items`, ending as `stop` says. -/
inductive StreamAttempt where
  | openErr (f : ApiFailure)
  | opened (items : List StreamItem) (stop : AttemptEnd)
  deriving Repr, DecidableEq

/-- One tuple yielded by the `send_message_stream` generator. -/
structure StreamEvent where
  tag : String
  answer : String
  n_input : Int
  n_output : Int
  removed : Nat
  deriving Repr, DecidableEq

/-- The function-local variables of `send_message_stream` that are assigned
only inside the two delta branches and read by the final yield: `none`
models a still-unassigned Python local. -/
structure StreamVars where
  n_input : Option Int
  n_output : Option Int
  removed : Option Nat
  deriving Repr, DecidableEq

/-- Output of processing the items of one opened stream: the events yielded
so far, the delta texts in emission order, and either the final
`(answer, vars)` or an exception raised mid-processing. -/
structure ItemsOut where
  events : List StreamEvent
  frags : List String
  result : Except PyError (String × StreamVars)
  deriving Repr

/-- The `async for r_item in r_gen` body of `send_message_stream`: a
`content_block_delta` appends its text to `answer`, recomputes the local
token counts and the removed-count move and yields "not_finished"; a
`message_delta` recomputes the counts, overwrites the output count with the
provider-reported one and yields "not_finished"; other events are
ignored. -/
def process_items (encFor : String → String → Nat)
    (messages : List ChatMessage) (model : String) (n_before : Nat)
    (dialog_len : Nat) : List StreamItem → String → StreamVars → ItemsOut
  | [], answer, vars => ⟨[], [], .ok (answer, vars)⟩
  | .contentBlockDelta t :: rest, answer, vars =>
    let answer' := answer ++ t
    match _count_tokens_from_messages encFor messages answer' model with
    | .error e => ⟨[], [t], .error e⟩
    | .ok (i, o) =>
      let rm := n_before - dialog_len
      let ev : StreamEvent := ⟨"not_finished", answer', i, o, rm⟩
      let out := process_items encFor messages model n_before dialog_len
        rest answer' ⟨some i, some o, some rm⟩
      ⟨ev :: out.events, t :: out.frags, out.result⟩
  | .messageDelta u :: rest, answer, vars =>
    match _count_tokens_from_messages encFor messages answer model with
    | .error e => ⟨[], [], .error e⟩
    | .ok (i, _) =>
      let rm := n_before - dialog_len
      let ev : StreamEvent := ⟨"not_finished", answer, i, u, rm⟩
      let out := process_items encFor messages model n_before dialog_len
        rest answer ⟨some i, some u, some rm⟩
      ⟨ev :: out.events, out.frags, out.result⟩
  | .otherItem _ :: rest, answer, vars =>
    process_items encFor messages model n_before dialog_len rest answer vars

/-- How a whole `send_message_stream` run ends: the generator is exhausted
after yielding its "finished" element, or it raises, or the fuel runs
out. -/
inductive StreamOutcome where
  | finished
  | raised (e : PyError)
  | fuelOut
  deriving Repr, DecidableEq

/-- Trace of one `send_message_stream` run: every yielded event in order,
every delta text fragment in emission order, the number of remote calls
issued, and how the run ended. -/
structure StreamRunOut where
  events : List StreamEvent
  frags : List String
  calls : Nat
  outcome : StreamOutcome
  deriving Repr, DecidableEq

/-- The final `yield "finished", answer, ...` of `send_message_stream`: it
reads the delta-branch locals, raising `UnboundLocalError` if no delta
branch ever ran. -/
def final_yield (events : List StreamEvent) (frags : List String)
    (answer : String) (vars : StreamVars) : StreamRunOut :=
  match vars.n_input, vars.n_output, vars.removed with
  | some i, some o, some rm =>
    ⟨events ++ [⟨"finished", answer, i, o, rm⟩], frags, 1, .finished⟩
  | _, _, _ => ⟨events, frags, 1, .raised .unboundLocal⟩

/-- The `while answer is None` loop of `Claude.send_message_stream`.
`answer` is `None` at loop entry; `answer = ""` runs only after the stream
opens, so:
* an exception from `await create(...)` itself leaves `answer` as `None`
  and the `except` clause decides between raising (`historyExhausted` when
  the dialog is empty, `rateLimited` on '429'), trimming and looping
  ('403'), or looping with the dialog unchanged (any other status code);
* once a stream has opened, `answer` is a string, so after the attempt the
  loop always exits: a normal end strips the answer and yields "finished";
  a mid-stream `APIStatusError` runs the same `except` clause (raising on
  empty dialog or '429'), but on '403' or any other code the loop
  condition is now false and the generator falls through to the final
  yield with the partial, unstripped answer and the stale locals.
The `vars` state persists across attempts, as Python function locals do. -/
def stream_loop (encFor : String → String → Nat)
    (model sys message chat_mode : String) (svc : Nat → StreamAttempt)
    (n_before : Nat) :
    Nat → Nat → List Turn → StreamVars → StreamRunOut
  | 0, _, _, _ => ⟨[], [], 0, .fuelOut⟩
  | fuel + 1, attempt, dialog, vars =>
    if model ∈ known_claude_models then
      match svc attempt with
      | .openErr (.otherErr e) => ⟨[], [], 1, .raised (.otherRaised e)⟩
      | .openErr (.statusErr code) =>
        if dialog.length = 0 then ⟨[], [], 1, .raised .historyExhausted⟩
        else if code = "403" then
          let rest := stream_loop encFor model sys message chat_mode svc
            n_before fuel (attempt + 1) (dialog.drop 1) vars
          ⟨rest.events, rest.frags, rest.calls + 1, rest.outcome⟩
        else if code = "429" then ⟨[], [], 1, .raised .rateLimited⟩
        else
          let rest := stream_loop encFor model sys message chat_mode svc
            n_before fuel (attempt + 1) dialog vars
          ⟨rest.events, rest.frags, rest.calls + 1, rest.outcome⟩
      | .opened items stop =>
        let messages := _generate_prompt_messages message dialog chat_mode
        let out := process_items encFor messages model n_before
          dialog.length items "" vars
        match out.result with
        | .error e => ⟨out.events, out.frags, 1, .raised e⟩
        | .ok (answer, vars') =>
          match stop with
          | .done =>
            final_yield out.events out.frags (_postprocess_answer answer)
              vars'
          | .failed (.otherErr e) =>
            ⟨out.events, out.frags, 1, .raised (.otherRaised e)⟩
          | .failed (.statusErr code) =>
            if dialog.length = 0 then
              ⟨out.events, out.frags, 1, .raised .historyExhausted⟩
            else if code = "429" then
              ⟨out.events, out.frags, 1, .raised .rateLimited⟩
            else
              final_yield out.events out.frags answer vars'
    else ⟨[], [], 0, .raised .attributeError⟩

/-- Model of `Claude.send_message_stream`: the chat-mode precondition
check, then the loop, with all delta-branch locals initially unassigned. -/
def send_message_stream (encFor : String → String → Nat)
    (chat_modes : String → Option String) (model : String)
    (svc : Nat → StreamAttempt) (fuel : Nat) (message : String)
    (dialog_messages : List Turn) (chat_mode : String) : StreamRunOut :=
  match chat_modes chat_mode with
  | none => ⟨[], [], 0, .raised (.unsupportedMode chat_mode)⟩
  | some prompt =>
    stream_loop encFor model prompt message chat_mode svc
      dialog_messages.length fuel 0 dialog_messages ⟨none, none, none⟩

/-- Concatenation of fragments in emission order, as the spec speaks of
it. -/
def concat_frags : List String → String
  | [] => ""
  | s :: rest => s ++ concat_frags rest

/-- Example tokenizer used by concrete witnesses: every model's encoding
counts one token per character. -/
def enc_for_ex : String → String → Nat :=
  fun _ s => s.length

/-
Heap model for the frame property.  Python list objects live on a heap and
variables hold references; the caller's `dialog_messages` list is one such
object, and the function parameter initially aliases it.  The statement
`dialog_messages = dialog_messages[1:]` evaluates the slice — which
allocates a fresh list object — and rebinds the local name to it; no
statement of `send_message` or `send_message_stream` mutates a list object
in place.  The heap is a list of list objects addressed by index; `alloc`
appends a fresh object.
-/

/-- Heap of Python list objects holding dialog turns. -/
abbrev HeapL := List (List Turn)

/-- Dereference a list object. -/
def heap_get (h : HeapL) (r : Nat) : List Turn :=
  h.getD r []

/-- Allocate a fresh list object, returning the new heap and the new
reference. -/
def heap_alloc (h : HeapL) (l : List Turn) : HeapL × Nat :=
  (h ++ [l], h.length)

/-- Heap-level rendering of the `send_message` retry loop: `r` is the
reference held by the local variable `dialog_messages`, initially the
caller's object.  Only the '403' branch touches the history, and it does so
by allocating the slice `dialog_messages[1:]` and rebinding the local
reference.  Returns the final heap. -/
def send_loop_heap (model : String) (svc : Nat → ApiResult) :
    Nat → Nat → HeapL → Nat → HeapL
  | 0, _, h, _ => h
  | fuel + 1, attempt, h, r =>
    if model ∈ known_claude_models then
      match svc attempt with
      | .ok _ _ _ => h
      | .otherErr _ => h
      | .statusErr code =>
        if (heap_get h r).length = 0 then h
        else if code = "403" then
          let p := heap_alloc h ((heap_get h r).drop 1)
          send_loop_heap model svc fuel (attempt + 1) p.1 p.2
        else if code = "429" then h
        else send_loop_heap model svc fuel (attempt + 1) h r
    else h

/-- Heap-level model of `send_message`: mode check, then the loop with the
local variable aliasing the caller's object at `r`. -/
def send_message_heap (chat_modes : String → Option String)
    (model : String) (svc : Nat → ApiResult) (fuel : Nat)
    (chat_mode : String) (h : HeapL) (r : Nat) : HeapL :=
  match chat_modes chat_mode with
  | none => h
  | some _ => send_loop_heap model svc fuel 0 h r

/-- Heap-level rendering of the `send_message_stream` loop.  An open
failure runs the same `except` clause as `send_message`; once a stream has
opened, the loop always exits afterwards, but a mid-stream '403' still
evaluates the slice once before the exit. -/
def stream_loop_heap (model : String) (svc : Nat → StreamAttempt) :
    Nat → Nat → HeapL → Nat → HeapL
  | 0, _, h, _ => h
  | fuel + 1, attempt, h, r =>
    if model ∈ known_claude_models then
      match svc attempt with
      | .openErr (.otherErr _) => h
      | .openErr (.statusErr code) =>
        if (heap_get h r).length = 0 then h
        else if code = "403" then
          let p := heap_alloc h ((heap_get h r).drop 1)
          stream_loop_heap model svc fuel (attempt + 1) p.1 p.2
        else if code = "429" then h
        else stream_loop_heap model svc fuel (attempt + 1) h r
      | .opened _ stop =>
        match stop with
        | .done => h
        | .failed (.otherErr _) => h
        | .failed (.statusErr code) =>
          if (heap_get h r).length = 0 then h
          else if code = "403" then
            (heap_alloc h ((heap_get h r).drop 1)).1
          else h
    else h

/-- Heap-level model of `send_message_stream`. -/
def send_message_stream_heap (chat_modes : String → Option String)
    (model : String) (svc : Nat → StreamAttempt) (fuel : Nat)
    (chat_mode : String) (h : HeapL) (r : Nat) : HeapL :=
  match chat_modes chat_mode with
  | none => h
  | some _ => stream_loop_heap model svc fuel 0 h r

/-! Sanity checks of the embedding on concrete inputs, mirroring the
worked examples of the specification. -/

example :
    send_message chat_modes_ex "claude-3-5-sonnet-20240620"
      (fun _ => .ok " hi there " 5 3) 4 "hello" [] "assistant"
    = (.ok "hi there" 5 3 0,
       [⟨"claude-3-5-sonnet-20240620", "You are an assistant.",
         [⟨"user", "hello"⟩], false⟩]) := by decide

example :
    (send_message chat_modes_ex "claude-3-5-sonnet-20240620"
      (fun _ => .statusErr "403") 4 "hello" [⟨"a", "b"⟩] "assistant").1
    = .err .historyExhausted := by decide

example :
    send_message_stream enc_for_ex chat_modes_ex
      "claude-3-5-sonnet-20240620"
      (fun _ => .opened [.contentBlockDelta " hi "] .done) 4 "x" []
      "assistant"
    = ⟨[⟨"not_finished", " hi ", 10, 5, 0⟩, ⟨"finished", "hi", 10, 5, 0⟩],
       [" hi "], 1, .finished⟩ := by decide

example :
    (send_message_stream enc_for_ex chat_modes_ex
      "claude-3-5-sonnet-20240620"
      (fun _ => .opened [] .done) 4 "x" [] "assistant").outcome
    = .raised .unboundLocal := by decide

/-- C9: a mode key that does not name a configured entry makes both
`send_message` and `send_message_stream` raise the "chat mode is not
supported" error at once: no request reaches the remote service (the
request trace is empty, zero calls) and no retry happens. -/
theorem claim_C9 (encFor : String → String → Nat)
    (chat_modes : String → Option String) (model : String)
    (svcS : Nat → ApiResult) (svcT : Nat → StreamAttempt) (fuel : Nat)
    (message : String) (dialog : List Turn) (chat_mode : String)
    (h : chat_modes chat_mode = none) :
    send_message chat_modes model svcS fuel message dialog chat_mode
      = (.err (.unsupportedMode chat_mode), [])
    ∧ send_message_stream encFor chat_modes model svcT fuel message dialog
        chat_mode
      = ⟨[], [], 0, .raised (.unsupportedMode chat_mode)⟩ := by
  constructor <;> simp [send_message, send_message_stream, h]

theorem claim_C9_witness :
    chat_modes_ex "poet" = none
    ∧ send_message chat_modes_ex "claude-3-5-sonnet-20240620"
        (fun _ => .ok "x" 1 1) 4 "hello" [⟨"a", "b"⟩] "poet"
      = (.err (.unsupportedMode "poet"), [])
    ∧ send_message_stream enc_for_ex chat_modes_ex
        "claude-3-5-sonnet-20240620" (fun _ => .opened [] .done) 4 "hello"
        [⟨"a", "b"⟩] "poet"
      = ⟨[], [], 0, .raised (.unsupportedMode "poet")⟩ := by
  refine ⟨by decide, ?_⟩
  exact claim_C9 enc_for_ex chat_modes_ex "claude-3-5-sonnet-20240620"
    (fun _ => .ok "x" 1 1) (fun _ => .opened [] .done) 4 "hello"
    [⟨"a", "b"⟩] "poet" (by decide)

/-- C8: when the remote call succeeds on the first attempt, `send_message`
returns the stripped answer text, the provider-reported usage counts
(`r.usage.input_tokens` / `r.usage.output_tokens`, not the local
estimate, which is never computed on this path), and a removed-count of
0; exactly one request is issued. -/
theorem claim_C8 (chat_modes : String → Option String)
    (prompt model : String) (svc : Nat → ApiResult) (fuel : Nat)
    (message : String) (dialog : List Turn) (chat_mode : String)
    (text : String) (a b : Nat)
    (hm : chat_modes chat_mode = some prompt)
    (hk : model ∈ known_claude_models)
    (h0 : svc 0 = .ok text a b) :
    send_message chat_modes model svc (fuel + 1) message dialog chat_mode
      = (.ok (_postprocess_answer text) a b 0,
         [mk_request model prompt message dialog chat_mode false]) := by
  simp [send_message, send_loop, hm, hk, h0]

theorem claim_C8_witness :
    send_message chat_modes_ex "claude-3-5-sonnet-20240620"
      (fun _ => .ok " hi there " 5 3) 4 "hello" [⟨"a", "b"⟩] "assistant"
    = (.ok "hi there" 5 3 0,
       [mk_request "claude-3-5-sonnet-20240620" "You are an assistant."
         "hello" [⟨"a", "b"⟩] "assistant" false]) := by
  have h := claim_C8 chat_modes_ex "You are an assistant."
    "claude-3-5-sonnet-20240620" (fun _ => .ok " hi there " 5 3) 3 "hello"
    [⟨"a", "b"⟩] "assistant" " hi there " 5 3 (by decide) (by decide)
    (by decide)
  simpa [show _postprocess_answer " hi there " = "hi there" by decide]
    using h

/-- C3 as stated is false: with an empty history, a rate-limited first
attempt raises the history-exhausted error, not the rate-limit error,
because the `except` clause tests `len(dialog_messages) == 0` before it
looks at the status code. -/
theorem claim_C3_counterexample :
    (send_message chat_modes_ex "claude-3-5-sonnet-20240620"
      (fun _ => .statusErr "429") 4 "hi" [] "assistant").1
      = .err .historyExhausted
    ∧ (send_message chat_modes_ex "claude-3-5-sonnet-20240620"
        (fun _ => .statusErr "429") 4 "hi" [] "assistant").1
      ≠ .err .rateLimited := by decide

/-- C3 amended: for every NON-empty history, a rate-limited first attempt
makes `send_message` raise the rate-limit error immediately: no retry, and
the remote call is invoked exactly once (the request trace has exactly the
first request). -/
theorem claim_C3_amended (chat_modes : String → Option String)
    (prompt model : String) (svc : Nat → ApiResult) (fuel : Nat)
    (message : String) (dialog : List Turn) (chat_mode : String)
    (hm : chat_modes chat_mode = some prompt)
    (hk : model ∈ known_claude_models)
    (hne : dialog ≠ [])
    (h0 : svc 0 = .statusErr "429") :
    send_message chat_modes model svc (fuel + 1) message dialog chat_mode
      = (.err .rateLimited,
         [mk_request model prompt message dialog chat_mode false]) := by
  have hlen : ¬ dialog.length = 0 := by
    simpa [List.length_eq_zero] using hne
  simp [send_message, send_loop, hm, hk, h0, hlen]

theorem claim_C3_witness :
    send_message chat_modes_ex "claude-3-5-sonnet-20240620"
      (fun _ => .statusErr "429") 4 "hi" [⟨"a", "b"⟩] "assistant"
    = (.err .rateLimited,
       [mk_request "claude-3-5-sonnet-20240620" "You are an assistant."
         "hi" [⟨"a", "b"⟩] "assistant" false]) :=
  claim_C3_amended chat_modes_ex "You are an assistant."
    "claude-3-5-sonnet-20240620" (fun _ => .statusErr "429") 3 "hi"
    [⟨"a", "b"⟩] "assistant" (by decide) (by decide) (by decide) (by decide)

/-! Frame lemmas for the heap model: allocation never changes an existing
object, and both loops only ever allocate. -/

lemma heap_get_append (h : HeapL) (l : List Turn) (r0 : Nat)
    (hr : r0 < h.length) : heap_get (h ++ [l]) r0 = heap_get h r0 := by
  simp only [heap_get, List.getD]
  rw [List.get?_append hr]

lemma send_loop_heap_frame (model : String) (svc : Nat → ApiResult) :
    ∀ (fuel attempt : Nat) (h : HeapL) (r r0 : Nat), r0 < h.length →
      heap_get (send_loop_heap model svc fuel attempt h r) r0
        = heap_get h r0
      ∧ h.length ≤ (send_loop_heap model svc fuel attempt h r).length := by
  intro fuel
  induction fuel with
  | zero =>
    intro attempt h r r0 hr
    exact ⟨rfl, Nat.le_refl _⟩
  | succ n ih =>
    intro attempt h r r0 hr
    unfold send_loop_heap
    by_cases hk : model ∈ known_claude_models
    · rw [if_pos hk]
      split
      · exact ⟨rfl, Nat.le_refl _⟩
      · exact ⟨rfl, Nat.le_refl _⟩
      · rename_i code heq
        by_cases h0 : (heap_get h r).length = 0
        · rw [if_pos h0]; exact ⟨rfl, Nat.le_refl _⟩
        · rw [if_neg h0]
          by_cases h403 : code = "403"
          · rw [if_pos h403]
            simp only [heap_alloc]
            have hr' : r0 < (h ++ [(heap_get h r).drop 1]).length := by
              simp only [List.length_append, List.length_cons,
                List.length_nil]
              omega
            obtain ⟨ih1, ih2⟩ :=
              ih (attempt + 1) (h ++ [(heap_get h r).drop 1]) h.length r0
                hr'
            refine ⟨?_, ?_⟩
            · rw [ih1, heap_get_append _ _ _ hr]
            · calc h.length ≤ (h ++ [(heap_get h r).drop 1]).length := by
                    simp
                _ ≤ _ := ih2
          · rw [if_neg h403]
            by_cases h429 : code = "429"
            · rw [if_pos h429]; exact ⟨rfl, Nat.le_refl _⟩
            · rw [if_neg h429]
              exact ih (attempt + 1) h r r0 hr
    · rw [if_neg hk]; exact ⟨rfl, Nat.le_refl _⟩

lemma stream_loop_heap_frame (model : String) (svc : Nat → StreamAttempt) :
    ∀ (fuel attempt : Nat) (h : HeapL) (r r0 : Nat), r0 < h.length →
      heap_get (stream_loop_heap model svc fuel attempt h r) r0
        = heap_get h r0
      ∧ h.length ≤ (stream_loop_heap model svc fuel attempt h r).length := by
  intro fuel
  induction fuel with
  | zero =>
    intro attempt h r r0 hr
    exact ⟨rfl, Nat.le_refl _⟩
  | succ n ih =>
    intro attempt h r r0 hr
    unfold stream_loop_heap
    by_cases hk : model ∈ known_claude_models
    · rw [if_pos hk]
      split
      · exact ⟨rfl, Nat.le_refl _⟩
      · rename_i code heq
        by_cases h0 : (heap_get h r).length = 0
        · rw [if_pos h0]; exact ⟨rfl, Nat.le_refl _⟩
        · rw [if_neg h0]
          by_cases h403 : code = "403"
          · rw [if_pos h403]
            simp only [heap_alloc]
            have hr' : r0 < (h ++ [(heap_get h r).drop 1]).length := by
              simp only [List.length_append, List.length_cons,
                List.length_nil]
              omega
            obtain ⟨ih1, ih2⟩ :=
              ih (attempt + 1) (h ++ [(heap_get h r).drop 1]) h.length
                r0 hr'
            refine ⟨?_, ?_⟩
            · rw [ih1, heap_get_append _ _ _ hr]
            · calc h.length
                  ≤ (h ++ [(heap_get h r).drop 1]).length := by simp
                _ ≤ _ := ih2
          · rw [if_neg h403]
            by_cases h429 : code = "429"
            · rw [if_pos h429]; exact ⟨rfl, Nat.le_refl _⟩
            · rw [if_neg h429]
              exact ih (attempt + 1) h r r0 hr
      · split
        · exact ⟨rfl, Nat.le_refl _⟩
        · exact ⟨rfl, Nat.le_refl _⟩
        · rename_i code heq2
          by_cases h0 : (heap_get h r).length = 0
          · rw [if_pos h0]; exact ⟨rfl, Nat.le_refl _⟩
          · rw [if_neg h0]
            by_cases h403 : code = "403"
            · rw [if_pos h403]
              simp only [heap_alloc]
              exact ⟨heap_get_append _ _ _ hr, by simp⟩
            · rw [if_neg h403]; exact ⟨rfl, Nat.le_refl _⟩
    · rw [if_neg hk]; exact ⟨rfl, Nat.le_refl _⟩

/-- C10: the caller's history list object is never mutated by a call to
`send_message` or `send_message_stream`.  In the heap model the caller's
object lives at `r` and the function's local variable initially aliases it;
after any run of either call, every pre-existing object — in particular the
caller's — holds exactly the turns it held before, because
`dialog_messages[1:]` allocates a fresh object and rebinds the local
name. -/
theorem claim_C10 (chat_modes : String → Option String) (model : String)
    (svcS : Nat → ApiResult) (svcT : Nat → StreamAttempt) (fuel : Nat)
    (chat_mode : String) (h : HeapL) (r : Nat) (hr : r < h.length) :
    heap_get (send_message_heap chat_modes model svcS fuel chat_mode h r) r
      = heap_get h r
    ∧ heap_get
        (send_message_stream_heap chat_modes model svcT fuel chat_mode h r)
        r
      = heap_get h r := by
  constructor
  · unfold send_message_heap
    cases chat_modes chat_mode with
    | none => rfl
    | some p => exact (send_loop_heap_frame model svcS fuel 0 h r r hr).1
  · unfold send_message_stream_heap
    cases chat_modes chat_mode with
    | none => rfl
    | some p => exact (stream_loop_heap_frame model svcT fuel 0 h r r hr).1

theorem claim_C10_witness :
    heap_get
      (send_message_heap chat_modes_ex "claude-3-5-sonnet-20240620"
        (fun _ => .statusErr "403") 4 "assistant"
        [[⟨"a", "b"⟩, ⟨"c", "d"⟩]] 0) 0
      = [⟨"a", "b"⟩, ⟨"c", "d"⟩]
    ∧ heap_get
        (send_message_stream_heap chat_modes_ex
          "claude-3-5-sonnet-20240620"
          (fun _ => .openErr (.statusErr "403")) 4 "assistant"
          [[⟨"a", "b"⟩, ⟨"c", "d"⟩]] 0) 0
      = [⟨"a", "b"⟩, ⟨"c", "d"⟩] := by
  have h := claim_C10 chat_modes_ex "claude-3-5-sonnet-20240620"
    (fun _ => .statusErr "403") (fun _ => .openErr (.statusErr "403")) 4
    "assistant" [[⟨"a", "b"⟩, ⟨"c", "d"⟩]] 0 (by decide)
  simpa [show heap_get [[(⟨"a", "b"⟩ : Turn), ⟨"c", "d"⟩]] 0
      = [⟨"a", "b"⟩, ⟨"c", "d"⟩] by decide] using h

/-! Token-accounting lemmas. -/

lemma msg_items_fold (enc : String → Nat) (tpn : Int) (m : ChatMessage)
    (init : Int) :
    (msg_items m).foldl
      (fun a kv => a + (enc kv.2 : Int) + (if kv.1 = "name" then tpn else 0))
      init
    = init + enc m.role + enc m.content := by
  simp [msg_items]

lemma count_fold (enc : String → Nat) (tpm tpn : Int) :
    ∀ (l : List ChatMessage) (init : Int),
      l.foldl
        (fun acc m =>
          (msg_items m).foldl
            (fun a kv =>
              a + (enc kv.2 : Int) + (if kv.1 = "name" then tpn else 0))
            (acc + tpm))
        init
      = init
        + (l.map (fun m => tpm + (enc m.role : Int) + enc m.content)).sum := by
  intro l
  induction l with
  | nil => intro init; simp
  | cons m rest ih =>
    intro init
    rw [List.foldl_cons, msg_items_fold, ih, List.map_cons, List.sum_cons]
    ring

/-- C7: the locally computed input-token count is, per message, the
per-message overhead looked up for the model plus the encoded length of
each of the message's values, plus the fixed per-conversation overhead 2;
the output count is the encoded length of the answer plus one; a model
identifier with no overhead entry makes the computation fail with the
"Unknown model" error.  (The messages assembled by this adapter carry only
"role" and "content" keys, so the encoded values are the role string and
the content string, and the "name" adjustment never fires.) -/
theorem claim_C7 (encFor : String → String → Nat)
    (messages : List ChatMessage) (answer model : String) :
    (∀ tpm tpn : Int, token_overheads model = some (tpm, tpn) →
      _count_tokens_from_messages encFor messages answer model
        = .ok
            ((messages.map (fun m =>
                tpm + (selected_encoding encFor model m.role : Int)
                  + selected_encoding encFor model m.content)).sum + 2,
             1 + (selected_encoding encFor model answer : Int)))
    ∧ (token_overheads model = none →
        _count_tokens_from_messages encFor messages answer model
          = .error (.unknownModelValue model)) := by
  constructor
  · intro tpm tpn h
    simp only [_count_tokens_from_messages, h]
    rw [count_fold]
    simp
  · intro h
    simp [_count_tokens_from_messages, h]

theorem claim_C7_witness :
    token_overheads "claude-3-5-sonnet-20240620" = some (3, 1)
    ∧ _count_tokens_from_messages enc_for_ex [⟨"user", "hello"⟩]
        "hi there" "claude-3-5-sonnet-20240620" = .ok (14, 9)
    ∧ token_overheads "claude-2" = none
    ∧ _count_tokens_from_messages enc_for_ex [⟨"user", "hello"⟩] "x"
        "claude-2" = .error (.unknownModelValue "claude-2") := by
  refine ⟨by decide, ?_, by decide, ?_⟩
  · exact ((claim_C7 enc_for_ex [⟨"user", "hello"⟩] "hi there"
      "claude-3-5-sonnet-20240620").1 3 1 (by decide)).trans (by decide)
  · exact (claim_C7 enc_for_ex [⟨"user", "hello"⟩] "x" "claude-2").2
      (by decide)

/-! Shape of the assembled message list. -/

lemma foldl_append_turns :
    ∀ (l : List Turn) (init : List ChatMessage),
      l.foldl (fun ms d => ms ++ [⟨"user", d.user⟩, ⟨"assistant", d.bot⟩])
        init
      = init ++ l.flatMap turn_messages := by
  intro l
  induction l with
  | nil => intro init; simp
  | cons d rest ih =>
    intro init
    rw [List.foldl_cons, ih, List.flatMap_cons]
    simp [turn_messages, List.append_assoc]

lemma gen_messages_eq (message : String) (dialog : List Turn)
    (chat_mode : String) :
    _generate_prompt_messages message dialog chat_mode
      = dialog.flatMap turn_messages ++ [⟨"user", message⟩] := by
  unfold _generate_prompt_messages
  rw [foldl_append_turns]
  simp

lemma flatMap_turn_length (dialog : List Turn) :
    (dialog.flatMap turn_messages).length = 2 * dialog.length := by
  induction dialog with
  | nil => simp
  | cons d rest ih =>
    simp only [List.flatMap_cons, List.length_append, ih, turn_messages,
      List.length_cons, List.length_nil]
    omega

lemma roles_alternate (message : String) :
    ∀ (dialog : List Turn) (i : Nat), i < 2 * dialog.length + 1 →
      ((dialog.flatMap turn_messages
          ++ [(⟨"user", message⟩ : ChatMessage)]).getD i
        default_message).role
        = if i % 2 = 0 then "user" else "assistant" := by
  intro dialog
  induction dialog with
  | nil =>
    intro i hi
    simp only [List.length_nil] at hi
    have hz : i = 0 := by omega
    subst hz
    simp [default_message]
  | cons d rest ih =>
    intro i hi
    simp only [List.flatMap_cons, turn_messages, List.cons_append,
      List.nil_append]
    match i with
    | 0 => simp
    | 1 => simp
    | (j + 2) =>
      rw [List.getD_cons_succ, List.getD_cons_succ, Nat.add_mod_right]
      exact ih j (by simp only [List.length_cons] at hi; omega)

lemma turn_contents (message : String) :
    ∀ (dialog : List Turn) (j : Nat), j < dialog.length →
      (dialog.flatMap turn_messages
          ++ [(⟨"user", message⟩ : ChatMessage)]).getD (2 * j)
          default_message
        = ⟨"user", (dialog.getD j default_turn).user⟩
      ∧ (dialog.flatMap turn_messages
          ++ [(⟨"user", message⟩ : ChatMessage)]).getD
          (2 * j + 1) default_message
        = ⟨"assistant", (dialog.getD j default_turn).bot⟩ := by
  intro dialog
  induction dialog with
  | nil =>
    intro j hj
    exact absurd hj (by simp)
  | cons d rest ih =>
    intro j hj
    cases j with
    | zero =>
      simp [List.flatMap_cons, turn_messages]
    | succ j' =>
      have hj' : j' < rest.length := by
        simp only [List.length_cons] at hj; omega
      have e0 : 2 * (j' + 1) = 2 * j' + 1 + 1 := by ring
      have e1 : 2 * (j' + 1) + 1 = 2 * j' + 1 + 1 + 1 := by ring
      simp only [List.flatMap_cons, turn_messages, List.cons_append,
        List.nil_append, e0, e1, List.getD_cons_succ]
      exact ih j' hj'

lemma send_loop_head (model sys message chat_mode : String)
    (svc : Nat → ApiResult) (n_before fuel attempt : Nat)
    (dialog : List Turn) (hk : model ∈ known_claude_models) :
    (send_loop model sys message chat_mode svc n_before (fuel + 1) attempt
      dialog).2.head?
      = some (mk_request model sys message dialog chat_mode false) := by
  unfold send_loop
  rw [if_pos hk]
  split
  · rfl
  · rfl
  · rename_i code heq
    by_cases h0 : dialog.length = 0
    · rw [if_pos h0]
      rfl
    · rw [if_neg h0]
      by_cases h403 : code = "403"
      · rw [if_pos h403]
        rfl
      · rw [if_neg h403]
        by_cases h429 : code = "429"
        · rw [if_pos h429]
          rfl
        · rw [if_neg h429]
          rfl

/-- C5: the assembled message list is the turns of the history flattened
into a user entry (the turn's user text) followed by an assistant entry
(the turn's assistant text), in original order, with the new message as
the final user entry; hence its length is `2*len(history)+1`, roles
strictly alternate user/assistant/…/user, and the last element is the new
user message.  Furthermore the request issued to the remote service
carries the mode's prompt in its separate `system` field, its `messages`
field being exactly this list. -/
theorem claim_C5 (message : String) (dialog : List Turn)
    (chat_mode : String) :
    _generate_prompt_messages message dialog chat_mode
      = dialog.flatMap turn_messages ++ [⟨"user", message⟩]
    ∧ (_generate_prompt_messages message dialog chat_mode).length
      = 2 * dialog.length + 1
    ∧ (∀ i, i < 2 * dialog.length + 1 →
        ((_generate_prompt_messages message dialog chat_mode).getD i
          default_message).role = if i % 2 = 0 then "user" else "assistant")
    ∧ (∀ j, j < dialog.length →
        (_generate_prompt_messages message dialog chat_mode).getD (2 * j)
            default_message
          = ⟨"user", (dialog.getD j default_turn).user⟩
        ∧ (_generate_prompt_messages message dialog chat_mode).getD
            (2 * j + 1) default_message
          = ⟨"assistant", (dialog.getD j default_turn).bot⟩)
    ∧ (_generate_prompt_messages message dialog chat_mode).getLast?
      = some ⟨"user", message⟩
    ∧ (∀ (chat_modes : String → Option String) (prompt model : String)
        (svcS : Nat → ApiResult) (fuel : Nat),
        chat_modes chat_mode = some prompt →
        model ∈ known_claude_models →
        (send_message chat_modes model svcS (fuel + 1) message dialog
          chat_mode).2.head?
          = some ⟨model, prompt,
              _generate_prompt_messages message dialog chat_mode, false⟩) := by
  refine ⟨gen_messages_eq message dialog chat_mode, ?_, ?_, ?_, ?_, ?_⟩
  · rw [gen_messages_eq, List.length_append, flatMap_turn_length]
    simp
  · intro i hi
    rw [gen_messages_eq]
    exact roles_alternate message dialog i hi
  · intro j hj
    rw [gen_messages_eq]
    exact turn_contents message dialog j hj
  · rw [gen_messages_eq]
    exact List.getLast?_concat _
  · intro chat_modes prompt model svcS fuel hm hk
    simp only [send_message, hm]
    exact send_loop_head model prompt message chat_mode svcS dialog.length
      fuel 0 dialog hk

theorem claim_C5_witness :
    (_generate_prompt_messages "hello" [⟨"q", "a"⟩] "assistant").length = 3
    ∧ ((_generate_prompt_messages "hello" [⟨"q", "a"⟩] "assistant").getD 0
        default_message).role = "user"
    ∧ (_generate_prompt_messages "hello" [⟨"q", "a"⟩] "assistant").getLast?
      = some ⟨"user", "hello"⟩
    ∧ (send_message chat_modes_ex "claude-3-5-sonnet-20240620"
        (fun _ => .ok "x" 1 1) 4 "hello" [⟨"q", "a"⟩]
        "assistant").2.head?
      = some ⟨"claude-3-5-sonnet-20240620", "You are an assistant.",
          _generate_prompt_messages "hello" [⟨"q", "a"⟩] "assistant",
          false⟩ := by
  obtain ⟨h1, h2, h3, h4, h5, h6⟩ := claim_C5 "hello" [⟨"q", "a"⟩]
    "assistant"
  refine ⟨by simpa using h2, by simpa using h3 0 (by decide), h5, ?_⟩
  simpa using h6 chat_modes_ex "You are an assistant."
    "claude-3-5-sonnet-20240620" (fun _ => .ok "x" 1 1) 3 (by decide)
    (by decide)

/-! Retry-loop lemmas for `send_message`. -/

lemma send_loop_step_ok (model sys message chat_mode : String)
    (svc : Nat → ApiResult) (n_before fuel attempt : Nat)
    (dialog : List Turn) (text : String) (inTok outTok : Nat)
    (hk : model ∈ known_claude_models)
    (hs : svc attempt = .ok text inTok outTok) :
    send_loop model sys message chat_mode svc n_before (fuel + 1) attempt
      dialog
    = (.ok (_postprocess_answer text) inTok outTok
        (n_before - dialog.length),
       [mk_request model sys message dialog chat_mode false]) := by
  simp [send_loop, hk, hs]

lemma send_loop_step_other (model sys message chat_mode : String)
    (svc : Nat → ApiResult) (n_before fuel attempt : Nat)
    (dialog : List Turn) (e : String)
    (hk : model ∈ known_claude_models)
    (hs : svc attempt = .otherErr e) :
    send_loop model sys message chat_mode svc n_before (fuel + 1) attempt
      dialog
    = (.err (.otherRaised e),
       [mk_request model sys message dialog chat_mode false]) := by
  simp [send_loop, hk, hs]

lemma send_loop_step_exhaust (model sys message chat_mode : String)
    (svc : Nat → ApiResult) (n_before fuel attempt : Nat)
    (dialog : List Turn) (code : String)
    (hk : model ∈ known_claude_models)
    (hs : svc attempt = .statusErr code)
    (h0 : dialog.length = 0) :
    send_loop model sys message chat_mode svc n_before (fuel + 1) attempt
      dialog
    = (.err .historyExhausted,
       [mk_request model sys message dialog chat_mode false]) := by
  simp [send_loop, hk, hs, h0]

lemma send_loop_step_403 (model sys message chat_mode : String)
    (svc : Nat → ApiResult) (n_before fuel attempt : Nat)
    (dialog : List Turn)
    (hk : model ∈ known_claude_models)
    (hs : svc attempt = .statusErr "403")
    (h0 : ¬ dialog.length = 0) :
    send_loop model sys message chat_mode svc n_before (fuel + 1) attempt
      dialog
    = ((send_loop model sys message chat_mode svc n_before fuel
          (attempt + 1) (dialog.drop 1)).1,
       mk_request model sys message dialog chat_mode false
         :: (send_loop model sys message chat_mode svc n_before fuel
              (attempt + 1) (dialog.drop 1)).2) := by
  simp [send_loop, hk, hs, h0]

lemma send_loop_step_429 (model sys message chat_mode : String)
    (svc : Nat → ApiResult) (n_before fuel attempt : Nat)
    (dialog : List Turn)
    (hk : model ∈ known_claude_models)
    (hs : svc attempt = .statusErr "429")
    (h0 : ¬ dialog.length = 0) :
    send_loop model sys message chat_mode svc n_before (fuel + 1) attempt
      dialog
    = (.err .rateLimited,
       [mk_request model sys message dialog chat_mode false]) := by
  simp [send_loop, hk, hs, h0]

lemma send_loop_step_swallowed (model sys message chat_mode : String)
    (svc : Nat → ApiResult) (n_before fuel attempt : Nat)
    (dialog : List Turn) (code : String)
    (hk : model ∈ known_claude_models)
    (hs : svc attempt = .statusErr code)
    (h0 : ¬ dialog.length = 0)
    (hc403 : ¬ code = "403") (hc429 : ¬ code = "429") :
    send_loop model sys message chat_mode svc n_before (fuel + 1) attempt
      dialog
    = ((send_loop model sys message chat_mode svc n_before fuel
          (attempt + 1) dialog).1,
       mk_request model sys message dialog chat_mode false
         :: (send_loop model sys message chat_mode svc n_before fuel
              (attempt + 1) dialog).2) := by
  simp [send_loop, hk, hs, h0, hc403, hc429]

lemma range_map_drop (model sys message chat_mode : String) (t : Turn)
    (rest : List Turn) (n : Nat) :
    (List.range (n + 1 + 1)).map
      (fun i => mk_request model sys message ((t :: rest).drop i)
        chat_mode false)
    = mk_request model sys message (t :: rest) chat_mode false
      :: (List.range (n + 1)).map
          (fun i => mk_request model sys message (rest.drop i) chat_mode
            false) := by
  rw [List.range_succ_eq_map]
  simp only [List.map_cons, List.map_map, List.drop_zero]
  congr 1

lemma send_loop_exhaust (model sys message chat_mode : String)
    (svc : Nat → ApiResult) (n_before : Nat)
    (hk : model ∈ known_claude_models) :
    ∀ (dialog : List Turn) (fuel attempt : Nat),
      (∀ i, i ≤ dialog.length → svc (attempt + i) = .statusErr "403") →
      dialog.length + 1 ≤ fuel →
      send_loop model sys message chat_mode svc n_before fuel attempt dialog
        = (.err .historyExhausted,
           (List.range (dialog.length + 1)).map
             (fun i => mk_request model sys message (dialog.drop i)
               chat_mode false)) := by
  intro dialog
  induction dialog with
  | nil =>
    intro fuel attempt h403 hfuel
    obtain ⟨f, rfl⟩ : ∃ f, fuel = f + 1 := ⟨fuel - 1, by omega⟩
    have h0 := h403 0 (by simp)
    rw [Nat.add_zero] at h0
    rw [send_loop_step_exhaust model sys message chat_mode svc n_before f
      attempt [] "403" hk h0 rfl]
    simp [List.range_succ]
  | cons t rest ih =>
    intro fuel attempt h403 hfuel
    obtain ⟨f, rfl⟩ : ∃ f, fuel = f + 1 := ⟨fuel - 1, by omega⟩
    have h0 := h403 0 (by simp)
    rw [Nat.add_zero] at h0
    have hlen : ¬ (t :: rest).length = 0 := by simp
    have hres := ih f (attempt + 1)
      (fun i hi => by
        have e : attempt + 1 + i = attempt + (i + 1) := by omega
        rw [e]
        exact h403 (i + 1) (by simp only [List.length_cons]; omega))
      (by simp only [List.length_cons] at hfuel; omega)
    rw [send_loop_step_403 model sys message chat_mode svc n_before f
      attempt (t :: rest) hk h0 hlen]
    simp only [List.drop_succ_cons, List.drop_zero]
    rw [hres]
    simp only [List.length_cons]
    rw [range_map_drop]

lemma send_loop_success (model sys message chat_mode : String)
    (svc : Nat → ApiResult) (n_before : Nat)
    (hk : model ∈ known_claude_models) :
    ∀ (k : Nat) (dialog : List Turn) (fuel attempt : Nat) (text : String)
      (a b : Nat),
      (∀ i, i < k → svc (attempt + i) = .statusErr "403") →
      svc (attempt + k) = .ok text a b →
      k ≤ dialog.length → k < fuel →
      send_loop model sys message chat_mode svc n_before fuel attempt dialog
        = (.ok (_postprocess_answer text) a b
            (n_before - (dialog.length - k)),
           (List.range (k + 1)).map
             (fun i => mk_request model sys message (dialog.drop i)
               chat_mode false)) := by
  intro k
  induction k with
  | zero =>
    intro dialog fuel attempt text a b h403 hok hk' hfuel
    obtain ⟨f, rfl⟩ : ∃ f, fuel = f + 1 := ⟨fuel - 1, by omega⟩
    rw [Nat.add_zero] at hok
    rw [send_loop_step_ok model sys message chat_mode svc n_before f
      attempt dialog text a b hk hok]
    simp [List.range_succ]
  | succ k' ih =>
    intro dialog fuel attempt text a b h403 hok hk' hfuel
    obtain ⟨f, rfl⟩ : ∃ f, fuel = f + 1 := ⟨fuel - 1, by omega⟩
    cases dialog with
    | nil => simp at hk'
    | cons t rest =>
      have h0 := h403 0 (by omega)
      rw [Nat.add_zero] at h0
      have hlen : ¬ (t :: rest).length = 0 := by simp
      have hok' : svc (attempt + 1 + k') = .ok text a b := by
        have e : attempt + 1 + k' = attempt + (k' + 1) := by omega
        rw [e]; exact hok
      have h403' : ∀ i, i < k' →
          svc (attempt + 1 + i) = .statusErr "403" := by
        intro i hi
        have e : attempt + 1 + i = attempt + (i + 1) := by omega
        rw [e]; exact h403 (i + 1) (by omega)
      have hk'' : k' ≤ rest.length := by
        simp only [List.length_cons] at hk'; omega
      have hres := ih rest f (attempt + 1) text a b h403' hok' hk''
        (by omega)
      rw [send_loop_step_403 model sys message chat_mode svc n_before f
        attempt (t :: rest) hk h0 hlen]
      simp only [List.drop_succ_cons, List.drop_zero]
      rw [hres]
      have hrm : n_before - (rest.length - k')
          = n_before - ((t :: rest).length - (k' + 1)) := by
        simp only [List.length_cons]; omega
      rw [hrm, range_map_drop]

/-- C1: when the remote service reports the "context too large" status on
every attempt, `send_message` drops exactly one turn — the oldest — from
the effective history per failed attempt (the `i`-th request carries
`dialog.drop i`), until the history is empty, at which point the
history-exhausted error is raised after `len(dialog)+1` calls; and when
the first `k` attempts fail that way and attempt `k` succeeds, the
returned removed-count equals `k`, the number of failed attempts, which
also equals the initial turn count minus the final turn count. -/
theorem claim_C1 (chat_modes : String → Option String)
    (prompt model : String) (svc : Nat → ApiResult) (fuel : Nat)
    (message : String) (dialog : List Turn) (chat_mode : String)
    (hm : chat_modes chat_mode = some prompt)
    (hk : model ∈ known_claude_models)
    (hne : dialog ≠ []) :
    ((∀ i, i ≤ dialog.length → svc i = .statusErr "403") →
      dialog.length + 1 ≤ fuel →
      send_message chat_modes model svc fuel message dialog chat_mode
        = (.err .historyExhausted,
           (List.range (dialog.length + 1)).map
             (fun i => mk_request model prompt message (dialog.drop i)
               chat_mode false)))
    ∧ (∀ (k : Nat) (text : String) (a b : Nat),
        (∀ i, i < k → svc i = .statusErr "403") →
        svc k = .ok text a b → k ≤ dialog.length → k < fuel →
        send_message chat_modes model svc fuel message dialog chat_mode
          = (.ok (_postprocess_answer text) a b k,
             (List.range (k + 1)).map
               (fun i => mk_request model prompt message (dialog.drop i)
                 chat_mode false))
          ∧ k = dialog.length - (dialog.drop k).length) := by
  constructor
  · intro h403 hfuel
    simp only [send_message, hm]
    exact send_loop_exhaust model prompt message chat_mode svc
      dialog.length hk dialog fuel 0
      (fun i hi => by rw [Nat.zero_add]; exact h403 i hi) hfuel
  · intro k text a b h403 hok hk' hfuel
    have h1 := send_loop_success model prompt message chat_mode svc
      dialog.length hk k dialog fuel 0 text a b
      (fun i hi => by rw [Nat.zero_add]; exact h403 i hi)
      (by rw [Nat.zero_add]; exact hok) hk' hfuel
    have hrm : dialog.length - (dialog.length - k) = k := by omega
    constructor
    · simp only [send_message, hm]
      rw [h1, hrm]
    · rw [List.length_drop]
      omega

theorem claim_C1_witness :
    send_message chat_modes_ex "claude-3-5-sonnet-20240620"
      (fun _ => .statusErr "403") 3 "hi" [⟨"a", "b"⟩, ⟨"c", "d"⟩]
      "assistant"
      = (.err .historyExhausted,
         [mk_request "claude-3-5-sonnet-20240620" "You are an assistant."
            "hi" [⟨"a", "b"⟩, ⟨"c", "d"⟩] "assistant" false,
          mk_request "claude-3-5-sonnet-20240620" "You are an assistant."
            "hi" [⟨"c", "d"⟩] "assistant" false,
          mk_request "claude-3-5-sonnet-20240620" "You are an assistant."
            "hi" [] "assistant" false])
    ∧ send_message chat_modes_ex "claude-3-5-sonnet-20240620"
        (fun n => if n = 0 then .statusErr "403" else .ok " ok " 7 8) 3
        "hi" [⟨"a", "b"⟩, ⟨"c", "d"⟩] "assistant"
      = (.ok "ok" 7 8 1,
         [mk_request "claude-3-5-sonnet-20240620" "You are an assistant."
            "hi" [⟨"a", "b"⟩, ⟨"c", "d"⟩] "assistant" false,
          mk_request "claude-3-5-sonnet-20240620" "You are an assistant."
            "hi" [⟨"c", "d"⟩] "assistant" false]) := by
  constructor
  · have h := (claim_C1 chat_modes_ex "You are an assistant."
      "claude-3-5-sonnet-20240620" (fun _ => .statusErr "403") 3 "hi"
      [⟨"a", "b"⟩, ⟨"c", "d"⟩] "assistant" (by decide) (by decide)
      (by decide)).1 (fun i _ => rfl) (by decide)
    exact h.trans (by decide)
  · have h := (claim_C1 chat_modes_ex "You are an assistant."
      "claude-3-5-sonnet-20240620"
      (fun n => if n = 0 then .statusErr "403" else .ok " ok " 7 8) 3 "hi"
      [⟨"a", "b"⟩, ⟨"c", "d"⟩] "assistant" (by decide) (by decide)
      (by decide)).2 1 " ok " 7 8
      (fun i hi => by
        have hz : i = 0 := by omega
        subst hz
        rfl)
      (by decide) (by decide) (by decide)
    exact h.1.trans (by decide)

/-! Behaviour of `send_message` on an unrecognized status code. -/

lemma send_loop_unknown_code (model sys message chat_mode : String)
    (svc : Nat → ApiResult) (n_before : Nat)
    (hk : model ∈ known_claude_models) (code : String)
    (hc403 : ¬ code = "403") (hc429 : ¬ code = "429")
    (hsvc : ∀ i, svc i = .statusErr code) (dialog : List Turn)
    (hne : ¬ dialog.length = 0) :
    ∀ (fuel attempt : Nat),
      (send_loop model sys message chat_mode svc n_before fuel attempt
        dialog).1 = .fuelOut := by
  intro fuel
  induction fuel with
  | zero => intro attempt; rfl
  | succ f ih =>
    intro attempt
    rw [send_loop_step_swallowed model sys message chat_mode svc n_before
      f attempt dialog code hk (hsvc attempt) hne hc403 hc429]
    exact ih (attempt + 1)

/-- C4 is wrong about the code: an `anthropic.APIStatusError` whose status
code is neither '403' nor '429' (for example a 500) is caught, silently
swallowed, and the loop re-invokes the remote call with the history
unchanged — it never propagates.  First conjunct: with such an error on
every attempt and a non-empty history, `send_message` never terminates
(for every fuel the run is still looping).  Second conjunct: with such an
error once and then a success, `send_message` returns normally after TWO
remote calls carrying the same unshortened history — the error was
retried, not propagated.  (A non-`APIStatusError` exception does
propagate unmodified; the claim fails only on this caught-but-unhandled
class.) -/
theorem claim_C4 :
    (∀ fuel : Nat,
      (send_message chat_modes_ex "claude-3-5-sonnet-20240620"
        (fun _ => .statusErr "500") fuel "hi" [⟨"u", "b"⟩]
        "assistant").1 = .fuelOut)
    ∧ send_message chat_modes_ex "claude-3-5-sonnet-20240620"
        (fun n => if n = 0 then .statusErr "500" else .ok "ok" 1 2) 5 "hi"
        [⟨"u", "b"⟩] "assistant"
      = (.ok "ok" 1 2 0,
         [mk_request "claude-3-5-sonnet-20240620" "You are an assistant."
            "hi" [⟨"u", "b"⟩] "assistant" false,
          mk_request "claude-3-5-sonnet-20240620" "You are an assistant."
            "hi" [⟨"u", "b"⟩] "assistant" false]) := by
  constructor
  · intro fuel
    exact send_loop_unknown_code "claude-3-5-sonnet-20240620"
      "You are an assistant." "hi" "assistant" (fun _ => .statusErr "500")
      1 (by decide) "500" (by decide) (by decide) (fun i => rfl)
      [⟨"u", "b"⟩] (by decide) fuel 0
  · decide

/-! Streaming lemmas: token counting always succeeds for known models,
single-step unfoldings of `process_items` and `stream_loop`, and the
structure of runs that finish. -/

lemma token_overheads_known (model : String)
    (hk : model ∈ known_claude_models) :
    token_overheads model = some (3, 1) := by
  simp only [known_claude_models, List.mem_cons, List.mem_singleton,
    List.not_mem_nil, or_false] at hk
  rcases hk with rfl | rfl | rfl <;> rfl

lemma count_tokens_ok (encFor : String → String → Nat)
    (messages : List ChatMessage) (answer model : String)
    (hk : model ∈ known_claude_models) :
    ∃ i o : Int,
      _count_tokens_from_messages encFor messages answer model
        = .ok (i, o) := by
  have hov := token_overheads_known model hk
  simp only [_count_tokens_from_messages, hov]
  exact ⟨_, _, rfl⟩

lemma process_items_step_delta (encFor : String → String → Nat)
    (messages : List ChatMessage) (model : String)
    (n_before dialog_len : Nat) (t : String) (rest : List StreamItem)
    (answer : String) (vars : StreamVars) (i o : Int)
    (hio : _count_tokens_from_messages encFor messages (answer ++ t) model
      = .ok (i, o)) :
    process_items encFor messages model n_before dialog_len
      (.contentBlockDelta t :: rest) answer vars
    = ⟨⟨"not_finished", answer ++ t, i, o, n_before - dialog_len⟩
         :: (process_items encFor messages model n_before dialog_len rest
              (answer ++ t)
              ⟨some i, some o, some (n_before - dialog_len)⟩).events,
       t :: (process_items encFor messages model n_before dialog_len rest
              (answer ++ t)
              ⟨some i, some o, some (n_before - dialog_len)⟩).frags,
       (process_items encFor messages model n_before dialog_len rest
         (answer ++ t)
         ⟨some i, some o, some (n_before - dialog_len)⟩).result⟩ := by
  simp [process_items, hio]

lemma process_items_step_usage (encFor : String → String → Nat)
    (messages : List ChatMessage) (model : String)
    (n_before dialog_len : Nat) (u : Int) (rest : List StreamItem)
    (answer : String) (vars : StreamVars) (i o : Int)
    (hio : _count_tokens_from_messages encFor messages answer model
      = .ok (i, o)) :
    process_items encFor messages model n_before dialog_len
      (.messageDelta u :: rest) answer vars
    = ⟨⟨"not_finished", answer, i, u, n_before - dialog_len⟩
         :: (process_items encFor messages model n_before dialog_len rest
              answer ⟨some i, some u, some (n_before - dialog_len)⟩).events,
       (process_items encFor messages model n_before dialog_len rest
         answer ⟨some i, some u, some (n_before - dialog_len)⟩).frags,
       (process_items encFor messages model n_before dialog_len rest
         answer ⟨some i, some u, some (n_before - dialog_len)⟩).result⟩ := by
  simp [process_items, hio]

lemma process_items_props (encFor : String → String → Nat)
    (messages : List ChatMessage) (model : String)
    (n_before dialog_len : Nat) (hk : model ∈ known_claude_models) :
    ∀ (items : List StreamItem) (answer : String) (vars : StreamVars),
      (∀ ev ∈ (process_items encFor messages model n_before dialog_len
          items answer vars).events, ev.tag = "not_finished")
      ∧ (∃ vars',
          (process_items encFor messages model n_before dialog_len items
            answer vars).result
          = .ok (answer
              ++ concat_frags (process_items encFor messages model n_before
                  dialog_len items answer vars).frags, vars'))
      ∧ (∀ ev ∈ (process_items encFor messages model n_before dialog_len
          items answer vars).events, ∃ m,
            ev.answer = answer
              ++ concat_frags ((process_items encFor messages model
                  n_before dialog_len items answer vars).frags.take m)) := by
  intro items
  induction items with
  | nil =>
    intro answer vars
    refine ⟨?_, ⟨vars, ?_⟩, ?_⟩
    · intro ev hev
      simp [process_items] at hev
    · simp [process_items, concat_frags, String.append_empty]
    · intro ev hev
      simp [process_items] at hev
  | cons item rest ih =>
    intro answer vars
    cases item with
    | contentBlockDelta t =>
      obtain ⟨i, o, hio⟩ :=
        count_tokens_ok encFor messages (answer ++ t) model hk
      rw [process_items_step_delta encFor messages model n_before
        dialog_len t rest answer vars i o hio]
      obtain ⟨htags, ⟨vars', hres⟩, hpre⟩ :=
        ih (answer ++ t) ⟨some i, some o, some (n_before - dialog_len)⟩
      refine ⟨?_, ⟨vars', ?_⟩, ?_⟩
      · intro ev hev
        simp only [List.mem_cons] at hev
        rcases hev with rfl | hev'
        · rfl
        · exact htags ev hev'
      · rw [hres]
        simp only [concat_frags]
        rw [String.append_assoc]
      · intro ev hev
        simp only [List.mem_cons] at hev
        rcases hev with rfl | hev'
        · refine ⟨1, ?_⟩
          simp [concat_frags, String.append_empty]
        · obtain ⟨m, hm⟩ := hpre ev hev'
          refine ⟨m + 1, ?_⟩
          rw [List.take_succ_cons]
          simp only [concat_frags]
          rw [← String.append_assoc]
          exact hm
    | messageDelta u =>
      obtain ⟨i, o, hio⟩ := count_tokens_ok encFor messages answer model hk
      rw [process_items_step_usage encFor messages model n_before
        dialog_len u rest answer vars i o hio]
      obtain ⟨htags, ⟨vars', hres⟩, hpre⟩ :=
        ih answer ⟨some i, some u, some (n_before - dialog_len)⟩
      refine ⟨?_, ⟨vars', hres⟩, ?_⟩
      · intro ev hev
        simp only [List.mem_cons] at hev
        rcases hev with rfl | hev'
        · rfl
        · exact htags ev hev'
      · intro ev hev
        simp only [List.mem_cons] at hev
        rcases hev with rfl | hev'
        · refine ⟨0, ?_⟩
          simp [concat_frags, String.append_empty]
        · exact hpre ev hev'
    | otherItem ty =>
      have hstep : process_items encFor messages model n_before dialog_len
          (.otherItem ty :: rest) answer vars
          = process_items encFor messages model n_before dialog_len rest
              answer vars := by
        simp [process_items]
      rw [hstep]
      exact ih answer vars

lemma stream_loop_unknown_model (encFor : String → String → Nat)
    (model sys message chat_mode : String) (svc : Nat → StreamAttempt)
    (n_before fuel attempt : Nat) (dialog : List Turn) (vars : StreamVars)
    (hk : ¬ model ∈ known_claude_models) :
    stream_loop encFor model sys message chat_mode svc n_before (fuel + 1)
      attempt dialog vars
    = ⟨[], [], 0, .raised .attributeError⟩ := by
  simp [stream_loop, hk]

lemma stream_loop_step_openOther (encFor : String → String → Nat)
    (model sys message chat_mode : String) (svc : Nat → StreamAttempt)
    (n_before fuel attempt : Nat) (dialog : List Turn) (vars : StreamVars)
    (e : String) (hk : model ∈ known_claude_models)
    (hs : svc attempt = .openErr (.otherErr e)) :
    stream_loop encFor model sys message chat_mode svc n_before (fuel + 1)
      attempt dialog vars
    = ⟨[], [], 1, .raised (.otherRaised e)⟩ := by
  simp [stream_loop, hk, hs]

lemma stream_loop_step_openExhaust (encFor : String → String → Nat)
    (model sys message chat_mode : String) (svc : Nat → StreamAttempt)
    (n_before fuel attempt : Nat) (dialog : List Turn) (vars : StreamVars)
    (code : String) (hk : model ∈ known_claude_models)
    (hs : svc attempt = .openErr (.statusErr code))
    (h0 : dialog.length = 0) :
    stream_loop encFor model sys message chat_mode svc n_before (fuel + 1)
      attempt dialog vars
    = ⟨[], [], 1, .raised .historyExhausted⟩ := by
  simp [stream_loop, hk, hs, h0]

lemma stream_loop_step_open403 (encFor : String → String → Nat)
    (model sys message chat_mode : String) (svc : Nat → StreamAttempt)
    (n_before fuel attempt : Nat) (dialog : List Turn) (vars : StreamVars)
    (hk : model ∈ known_claude_models)
    (hs : svc attempt = .openErr (.statusErr "403"))
    (h0 : ¬ dialog.length = 0) :
    stream_loop encFor model sys message chat_mode svc n_before (fuel + 1)
      attempt dialog vars
    = ⟨(stream_loop encFor model sys message chat_mode svc n_before fuel
          (attempt + 1) (dialog.drop 1) vars).events,
       (stream_loop encFor model sys message chat_mode svc n_before fuel
         (attempt + 1) (dialog.drop 1) vars).frags,
       (stream_loop encFor model sys message chat_mode svc n_before fuel
         (attempt + 1) (dialog.drop 1) vars).calls + 1,
       (stream_loop encFor model sys message chat_mode svc n_before fuel
         (attempt + 1) (dialog.drop 1) vars).outcome⟩ := by
  simp [stream_loop, hk, hs, h0]

lemma stream_loop_step_open429 (encFor : String → String → Nat)
    (model sys message chat_mode : String) (svc : Nat → StreamAttempt)
    (n_before fuel attempt : Nat) (dialog : List Turn) (vars : StreamVars)
    (hk : model ∈ known_claude_models)
    (hs : svc attempt = .openErr (.statusErr "429"))
    (h0 : ¬ dialog.length = 0) :
    stream_loop encFor model sys message chat_mode svc n_before (fuel + 1)
      attempt dialog vars
    = ⟨[], [], 1, .raised .rateLimited⟩ := by
  simp [stream_loop, hk, hs, h0]

lemma stream_loop_step_openSwallowed (encFor : String → String → Nat)
    (model sys message chat_mode : String) (svc : Nat → StreamAttempt)
    (n_before fuel attempt : Nat) (dialog : List Turn) (vars : StreamVars)
    (code : String) (hk : model ∈ known_claude_models)
    (hs : svc attempt = .openErr (.statusErr code))
    (h0 : ¬ dialog.length = 0)
    (hc403 : ¬ code = "403") (hc429 : ¬ code = "429") :
    stream_loop encFor model sys message chat_mode svc n_before (fuel + 1)
      attempt dialog vars
    = ⟨(stream_loop encFor model sys message chat_mode svc n_before fuel
          (attempt + 1) dialog vars).events,
       (stream_loop encFor model sys message chat_mode svc n_before fuel
         (attempt + 1) dialog vars).frags,
       (stream_loop encFor model sys message chat_mode svc n_before fuel
         (attempt + 1) dialog vars).calls + 1,
       (stream_loop encFor model sys message chat_mode svc n_before fuel
         (attempt + 1) dialog vars).outcome⟩ := by
  simp [stream_loop, hk, hs, h0, hc403, hc429]

lemma stream_loop_step_opened_done (encFor : String → String → Nat)
    (model sys message chat_mode : String) (svc : Nat → StreamAttempt)
    (n_before fuel attempt : Nat) (dialog : List Turn) (vars : StreamVars)
    (items : List StreamItem) (ans : String) (vars' : StreamVars)
    (hk : model ∈ known_claude_models)
    (hs : svc attempt = .opened items .done)
    (hres : (process_items encFor
        (_generate_prompt_messages message dialog chat_mode) model n_before
        dialog.length items "" vars).result = .ok (ans, vars')) :
    stream_loop encFor model sys message chat_mode svc n_before (fuel + 1)
      attempt dialog vars
    = final_yield
        (process_items encFor
          (_generate_prompt_messages message dialog chat_mode) model
          n_before dialog.length items "" vars).events
        (process_items encFor
          (_generate_prompt_messages message dialog chat_mode) model
          n_before dialog.length items "" vars).frags
        (_postprocess_answer ans) vars' := by
  simp [stream_loop, hk, hs, hres]

lemma stream_loop_step_opened_otherErr (encFor : String → String → Nat)
    (model sys message chat_mode : String) (svc : Nat → StreamAttempt)
    (n_before fuel attempt : Nat) (dialog : List Turn) (vars : StreamVars)
    (items : List StreamItem) (e : String) (ans : String)
    (vars' : StreamVars) (hk : model ∈ known_claude_models)
    (hs : svc attempt = .opened items (.failed (.otherErr e)))
    (hres : (process_items encFor
        (_generate_prompt_messages message dialog chat_mode) model n_before
        dialog.length items "" vars).result = .ok (ans, vars')) :
    stream_loop encFor model sys message chat_mode svc n_before (fuel + 1)
      attempt dialog vars
    = ⟨(process_items encFor
          (_generate_prompt_messages message dialog chat_mode) model
          n_before dialog.length items "" vars).events,
       (process_items encFor
         (_generate_prompt_messages message dialog chat_mode) model
         n_before dialog.length items "" vars).frags,
       1, .raised (.otherRaised e)⟩ := by
  simp [stream_loop, hk, hs, hres]

lemma stream_loop_step_opened_exhaust (encFor : String → String → Nat)
    (model sys message chat_mode : String) (svc : Nat → StreamAttempt)
    (n_before fuel attempt : Nat) (dialog : List Turn) (vars : StreamVars)
    (items : List StreamItem) (code : String) (ans : String)
    (vars' : StreamVars) (hk : model ∈ known_claude_models)
    (hs : svc attempt = .opened items (.failed (.statusErr code)))
    (hres : (process_items encFor
        (_generate_prompt_messages message dialog chat_mode) model n_before
        dialog.length items "" vars).result = .ok (ans, vars'))
    (h0 : dialog.length = 0) :
    stream_loop encFor model sys message chat_mode svc n_before (fuel + 1)
      attempt dialog vars
    = ⟨(process_items encFor
          (_generate_prompt_messages message dialog chat_mode) model
          n_before dialog.length items "" vars).events,
       (process_items encFor
         (_generate_prompt_messages message dialog chat_mode) model
         n_before dialog.length items "" vars).frags,
       1, .raised .historyExhausted⟩ := by
  simp [stream_loop, hk, hs, hres]
  intro hne
  exact absurd (List.length_eq_zero.mp h0) hne

lemma stream_loop_step_opened_429 (encFor : String → String → Nat)
    (model sys message chat_mode : String) (svc : Nat → StreamAttempt)
    (n_before fuel attempt : Nat) (dialog : List Turn) (vars : StreamVars)
    (items : List StreamItem) (ans : String) (vars' : StreamVars)
    (hk : model ∈ known_claude_models)
    (hs : svc attempt = .opened items (.failed (.statusErr "429")))
    (hres : (process_items encFor
        (_generate_prompt_messages message dialog chat_mode) model n_before
        dialog.length items "" vars).result = .ok (ans, vars'))
    (h0 : ¬ dialog.length = 0) :
    stream_loop encFor model sys message chat_mode svc n_before (fuel + 1)
      attempt dialog vars
    = ⟨(process_items encFor
          (_generate_prompt_messages message dialog chat_mode) model
          n_before dialog.length items "" vars).events,
       (process_items encFor
         (_generate_prompt_messages message dialog chat_mode) model
         n_before dialog.length items "" vars).frags,
       1, .raised .rateLimited⟩ := by
  simp [stream_loop, hk, hs, hres, h0]

lemma stream_loop_step_opened_cut (encFor : String → String → Nat)
    (model sys message chat_mode : String) (svc : Nat → StreamAttempt)
    (n_before fuel attempt : Nat) (dialog : List Turn) (vars : StreamVars)
    (items : List StreamItem) (code : String) (ans : String)
    (vars' : StreamVars) (hk : model ∈ known_claude_models)
    (hs : svc attempt = .opened items (.failed (.statusErr code)))
    (hres : (process_items encFor
        (_generate_prompt_messages message dialog chat_mode) model n_before
        dialog.length items "" vars).result = .ok (ans, vars'))
    (h0 : ¬ dialog.length = 0) (hc429 : ¬ code = "429") :
    stream_loop encFor model sys message chat_mode svc n_before (fuel + 1)
      attempt dialog vars
    = final_yield
        (process_items encFor
          (_generate_prompt_messages message dialog chat_mode) model
          n_before dialog.length items "" vars).events
        (process_items encFor
          (_generate_prompt_messages message dialog chat_mode) model
          n_before dialog.length items "" vars).frags
        ans vars' := by
  simp [stream_loop, hk, hs, hres, h0, hc429]

lemma final_yield_finished (evs : List StreamEvent) (frgs : List String)
    (ans : String) (vars : StreamVars)
    (hfin : (final_yield evs frgs ans vars).outcome = .finished)
    (htags : ∀ e ∈ evs, e.tag = "not_finished") :
    ∃ E f, (final_yield evs frgs ans vars).events = E ++ [f]
      ∧ (∀ e ∈ E, e.tag = "not_finished")
      ∧ f.tag = "finished" ∧ f.answer = ans
      ∧ (final_yield evs frgs ans vars).frags = frgs := by
  rcases vars with ⟨ni, no, rm⟩
  cases ni with
  | none => simp [final_yield] at hfin
  | some i =>
    cases no with
    | none => simp [final_yield] at hfin
    | some o =>
      cases rm with
      | none => simp [final_yield] at hfin
      | some r =>
        exact ⟨evs, ⟨"finished", ans, i, o, r⟩, rfl, htags, rfl, rfl, rfl⟩

lemma stream_loop_finished_shape (encFor : String → String → Nat)
    (model sys message chat_mode : String) (svc : Nat → StreamAttempt)
    (n_before : Nat) :
    ∀ (fuel attempt : Nat) (dialog : List Turn) (vars : StreamVars),
      (stream_loop encFor model sys message chat_mode svc n_before fuel
        attempt dialog vars).outcome = .finished →
      ∃ E f,
        (stream_loop encFor model sys message chat_mode svc n_before fuel
          attempt dialog vars).events = E ++ [f]
        ∧ (∀ e ∈ E, e.tag = "not_finished")
        ∧ f.tag = "finished"
        ∧ (f.answer
            = _postprocess_answer (concat_frags
                (stream_loop encFor model sys message chat_mode svc
                  n_before fuel attempt dialog vars).frags)
           ∨ f.answer
            = concat_frags
                (stream_loop encFor model sys message chat_mode svc
                  n_before fuel attempt dialog vars).frags) := by
  intro fuel
  induction fuel with
  | zero =>
    intro attempt dialog vars hfin
    simp [stream_loop] at hfin
  | succ f ih =>
    intro attempt dialog vars hfin
    by_cases hk : model ∈ known_claude_models
    · cases hsvc : svc attempt with
      | openErr fail =>
        cases fail with
        | otherErr e =>
          rw [stream_loop_step_openOther encFor model sys message chat_mode
            svc n_before f attempt dialog vars e hk hsvc] at hfin
          simp at hfin
        | statusErr code =>
          by_cases h0 : dialog.length = 0
          · rw [stream_loop_step_openExhaust encFor model sys message
              chat_mode svc n_before f attempt dialog vars code hk hsvc
              h0] at hfin
            simp at hfin
          · by_cases hc403 : code = "403"
            · subst hc403
              rw [stream_loop_step_open403 encFor model sys message
                chat_mode svc n_before f attempt dialog vars hk hsvc h0]
                at hfin ⊢
              exact ih (attempt + 1) (dialog.drop 1) vars hfin
            · by_cases hc429 : code = "429"
              · subst hc429
                rw [stream_loop_step_open429 encFor model sys message
                  chat_mode svc n_before f attempt dialog vars hk hsvc h0]
                  at hfin
                simp at hfin
              · rw [stream_loop_step_openSwallowed encFor model sys
                  message chat_mode svc n_before f attempt dialog vars
                  code hk hsvc h0 hc403 hc429] at hfin ⊢
                exact ih (attempt + 1) dialog vars hfin
      | opened items stop =>
        obtain ⟨htags, ⟨vars', hres⟩, hpre⟩ :=
          process_items_props encFor
            (_generate_prompt_messages message dialog chat_mode) model
            n_before dialog.length hk items "" vars
        rw [String.empty_append] at hres
        cases stop with
        | done =>
          rw [stream_loop_step_opened_done encFor model sys message
            chat_mode svc n_before f attempt dialog vars items _ vars' hk
            hsvc hres] at hfin ⊢
          obtain ⟨E, fev, h1, h2, h3, h4, h5⟩ :=
            final_yield_finished _ _ _ _ hfin htags
          exact ⟨E, fev, h1, h2, h3, Or.inl (by rw [h5]; exact h4)⟩
        | failed fail =>
          cases fail with
          | otherErr e =>
            rw [stream_loop_step_opened_otherErr encFor model sys message
              chat_mode svc n_before f attempt dialog vars items e _ vars'
              hk hsvc hres] at hfin
            simp at hfin
          | statusErr code =>
            by_cases h0 : dialog.length = 0
            · rw [stream_loop_step_opened_exhaust encFor model sys message
                chat_mode svc n_before f attempt dialog vars items code _
                vars' hk hsvc hres h0] at hfin
              simp at hfin
            · by_cases hc429 : code = "429"
              · subst hc429
                rw [stream_loop_step_opened_429 encFor model sys message
                  chat_mode svc n_before f attempt dialog vars items _
                  vars' hk hsvc hres h0] at hfin
                simp at hfin
              · rw [stream_loop_step_opened_cut encFor model sys message
                  chat_mode svc n_before f attempt dialog vars items code _
                  vars' hk hsvc hres h0 hc429] at hfin ⊢
                obtain ⟨E, fev, h1, h2, h3, h4, h5⟩ :=
                  final_yield_finished _ _ _ _ hfin htags
                exact ⟨E, fev, h1, h2, h3, Or.inr (by rw [h5]; exact h4)⟩
    · rw [stream_loop_unknown_model encFor model sys message chat_mode svc
        n_before f attempt dialog vars hk] at hfin
      simp at hfin

lemma final_yield_shape (evs : List StreamEvent) (frgs : List String)
    (ans : String) (vars : StreamVars) :
    (final_yield evs frgs ans vars).calls = 1
    ∧ (final_yield evs frgs ans vars).frags = frgs
    ∧ ∃ extra, (extra = [] ∨ ∃ fev, extra = [fev] ∧ fev.tag = "finished")
        ∧ (final_yield evs frgs ans vars).events = evs ++ extra := by
  rcases vars with ⟨ni, no, rm⟩
  rcases ni with _ | i <;> rcases no with _ | o <;> rcases rm with _ | r
  all_goals first
    | exact ⟨rfl, rfl, [], Or.inl rfl, (List.append_nil evs).symm⟩
    | exact ⟨rfl, rfl, [⟨"finished", ans, i, o, r⟩],
        Or.inr ⟨⟨"finished", ans, i, o, r⟩, rfl, rfl⟩, rfl⟩

/-- C2 as stated is false: the "finished" element carries the STRIPPED
answer, which differs from the concatenation of the streamed fragments
when the fragments begin or end with whitespace.  With the single fragment
`" hi "` the stream emits a finished element carrying `"hi"` while the
fragment concatenation is `" hi "`. -/
theorem claim_C2_counterexample :
    (send_message_stream enc_for_ex chat_modes_ex
      "claude-3-5-sonnet-20240620"
      (fun _ => .opened [.contentBlockDelta " hi "] .done) 4 "x" []
      "assistant").events.getLast? = some ⟨"finished", "hi", 10, 5, 0⟩
    ∧ concat_frags (send_message_stream enc_for_ex chat_modes_ex
        "claude-3-5-sonnet-20240620"
        (fun _ => .opened [.contentBlockDelta " hi "] .done) 4 "x" []
        "assistant").frags = " hi "
    ∧ ¬ (("hi" : String) = " hi ") := by decide

/-- C2 amended: every run of `send_message_stream` whose generator is
exhausted normally (no exception escapes) yields zero or more
"not_finished" elements followed by exactly one "finished" element, which
is the last element produced; the finished element's answer is obtained
from the concatenation of the streamed fragments in emission order —
stripped of surrounding whitespace when the stream ended normally, or the
raw concatenation when a handled status error cut the stream short. -/
theorem claim_C2_amended (encFor : String → String → Nat)
    (chat_modes : String → Option String) (model : String)
    (svc : Nat → StreamAttempt) (fuel : Nat) (message : String)
    (dialog : List Turn) (chat_mode : String)
    (hfin : (send_message_stream encFor chat_modes model svc fuel message
      dialog chat_mode).outcome = .finished) :
    ∃ E f,
      (send_message_stream encFor chat_modes model svc fuel message dialog
        chat_mode).events = E ++ [f]
      ∧ (∀ e ∈ E, e.tag = "not_finished")
      ∧ f.tag = "finished"
      ∧ (f.answer
          = _postprocess_answer (concat_frags
              (send_message_stream encFor chat_modes model svc fuel message
                dialog chat_mode).frags)
         ∨ f.answer
          = concat_frags (send_message_stream encFor chat_modes model svc
              fuel message dialog chat_mode).frags) := by
  cases hcm : chat_modes chat_mode with
  | none => simp [send_message_stream, hcm] at hfin
  | some prompt =>
    have hw : send_message_stream encFor chat_modes model svc fuel message
        dialog chat_mode
        = stream_loop encFor model prompt message chat_mode svc
            dialog.length fuel 0 dialog ⟨none, none, none⟩ := by
      simp [send_message_stream, hcm]
    rw [hw] at hfin ⊢
    exact stream_loop_finished_shape encFor model prompt message chat_mode
      svc dialog.length fuel 0 dialog ⟨none, none, none⟩ hfin

theorem claim_C2_witness :
    (send_message_stream enc_for_ex chat_modes_ex
      "claude-3-5-sonnet-20240620"
      (fun _ => .opened [.contentBlockDelta "a", .contentBlockDelta "b"]
        .done) 4 "m" [] "assistant").outcome = .finished
    ∧ ∃ E f,
        (send_message_stream enc_for_ex chat_modes_ex
          "claude-3-5-sonnet-20240620"
          (fun _ => .opened [.contentBlockDelta "a",
            .contentBlockDelta "b"] .done) 4 "m" []
          "assistant").events = E ++ [f]
        ∧ (∀ e ∈ E, e.tag = "not_finished")
        ∧ f.tag = "finished"
        ∧ (f.answer
            = _postprocess_answer (concat_frags
                (send_message_stream enc_for_ex chat_modes_ex
                  "claude-3-5-sonnet-20240620"
                  (fun _ => .opened [.contentBlockDelta "a",
                    .contentBlockDelta "b"] .done) 4 "m" []
                  "assistant").frags)
           ∨ f.answer
            = concat_frags (send_message_stream enc_for_ex chat_modes_ex
                "claude-3-5-sonnet-20240620"
                (fun _ => .opened [.contentBlockDelta "a",
                  .contentBlockDelta "b"] .done) 4 "m" []
                "assistant").frags) := by
  refine ⟨by decide, ?_⟩
  exact claim_C2_amended enc_for_ex chat_modes_ex
    "claude-3-5-sonnet-20240620"
    (fun _ => .opened [.contentBlockDelta "a", .contentBlockDelta "b"]
      .done) 4 "m" [] "assistant" (by decide)

/-- C6 as stated is false: when a context-too-large status error is
surfaced DURING streaming (after the stream opened), no retry happens.
With one turn of history and a stream that yields the fragment "ab" and
then fails with status '403', the remote service is invoked exactly once,
the generator finishes instead of retrying, and the finished element
carries "ab" — text from the failed attempt — because `answer` is no
longer `None` after `answer = ""` ran, so the `while` loop exits. -/
theorem claim_C6_counterexample :
    (send_message_stream enc_for_ex chat_modes_ex
      "claude-3-5-sonnet-20240620"
      (fun _ => .opened [.contentBlockDelta "ab"]
        (.failed (.statusErr "403"))) 4 "hi" [⟨"u1", "b1"⟩]
      "assistant").calls = 1
    ∧ (send_message_stream enc_for_ex chat_modes_ex
        "claude-3-5-sonnet-20240620"
        (fun _ => .opened [.contentBlockDelta "ab"]
          (.failed (.statusErr "403"))) 4 "hi" [⟨"u1", "b1"⟩]
        "assistant").outcome = .finished
    ∧ (send_message_stream enc_for_ex chat_modes_ex
        "claude-3-5-sonnet-20240620"
        (fun _ => .opened [.contentBlockDelta "ab"]
          (.failed (.statusErr "403"))) 4 "hi" [⟨"u1", "b1"⟩]
        "assistant").events.getLast?
      = some ⟨"finished", "ab", 34, 3, 0⟩ := by decide

/-- C6 amended: the retry-on-context-too-large and fail-on-rate-limit
policy of `send` applies to the streaming call only for errors raised
while OPENING the stream (before any fragment): a '403' open failure with
non-empty history re-runs the loop on the history minus its oldest turn
(one more call, state carried over), a '429' open failure raises the
rate-limit error, and any open failure with empty history raises the
history-exhausted error.  Once a stream has opened, the loop never
re-invokes the service — the run makes exactly one call — and the
attempt's events are produced by processing its items starting from the
EMPTY answer buffer (the `answer = ""` reset), followed by at most one
trailing "finished" element. -/
theorem claim_C6_amended (encFor : String → String → Nat)
    (model sys message chat_mode : String) (svc : Nat → StreamAttempt)
    (n_before fuel attempt : Nat) (dialog : List Turn) (vars : StreamVars)
    (hk : model ∈ known_claude_models) :
    (¬ dialog.length = 0 → svc attempt = .openErr (.statusErr "403") →
      stream_loop encFor model sys message chat_mode svc n_before
        (fuel + 1) attempt dialog vars
      = ⟨(stream_loop encFor model sys message chat_mode svc n_before fuel
            (attempt + 1) (dialog.drop 1) vars).events,
         (stream_loop encFor model sys message chat_mode svc n_before fuel
           (attempt + 1) (dialog.drop 1) vars).frags,
         (stream_loop encFor model sys message chat_mode svc n_before fuel
           (attempt + 1) (dialog.drop 1) vars).calls + 1,
         (stream_loop encFor model sys message chat_mode svc n_before fuel
           (attempt + 1) (dialog.drop 1) vars).outcome⟩)
    ∧ (¬ dialog.length = 0 → svc attempt = .openErr (.statusErr "429") →
        stream_loop encFor model sys message chat_mode svc n_before
          (fuel + 1) attempt dialog vars
        = ⟨[], [], 1, .raised .rateLimited⟩)
    ∧ (dialog.length = 0 → ∀ code,
        svc attempt = .openErr (.statusErr code) →
        stream_loop encFor model sys message chat_mode svc n_before
          (fuel + 1) attempt dialog vars
        = ⟨[], [], 1, .raised .historyExhausted⟩)
    ∧ (∀ items stop, svc attempt = .opened items stop →
        (stream_loop encFor model sys message chat_mode svc n_before
          (fuel + 1) attempt dialog vars).calls = 1
        ∧ (stream_loop encFor model sys message chat_mode svc n_before
            (fuel + 1) attempt dialog vars).frags
          = (process_items encFor
              (_generate_prompt_messages message dialog chat_mode) model
              n_before dialog.length items "" vars).frags
        ∧ ∃ extra,
            (extra = [] ∨ ∃ fev, extra = [fev] ∧ fev.tag = "finished")
            ∧ (stream_loop encFor model sys message chat_mode svc n_before
                (fuel + 1) attempt dialog vars).events
              = (process_items encFor
                  (_generate_prompt_messages message dialog chat_mode)
                  model n_before dialog.length items "" vars).events
                ++ extra) := by
  refine ⟨?_, ?_, ?_, ?_⟩
  · intro h0 hs
    exact stream_loop_step_open403 encFor model sys message chat_mode svc
      n_before fuel attempt dialog vars hk hs h0
  · intro h0 hs
    exact stream_loop_step_open429 encFor model sys message chat_mode svc
      n_before fuel attempt dialog vars hk hs h0
  · intro h0 code hs
    exact stream_loop_step_openExhaust encFor model sys message chat_mode
      svc n_before fuel attempt dialog vars code hk hs h0
  · intro items stop hs
    obtain ⟨htags, ⟨vars', hres⟩, hpre⟩ :=
      process_items_props encFor
        (_generate_prompt_messages message dialog chat_mode) model
        n_before dialog.length hk items "" vars
    cases stop with
    | done =>
      rw [stream_loop_step_opened_done encFor model sys message chat_mode
        svc n_before fuel attempt dialog vars items _ vars' hk hs hres]
      exact final_yield_shape _ _ _ _
    | failed fail =>
      cases fail with
      | otherErr e =>
        rw [stream_loop_step_opened_otherErr encFor model sys message
          chat_mode svc n_before fuel attempt dialog vars items e _ vars'
          hk hs hres]
        exact ⟨rfl, rfl, [], Or.inl rfl, (List.append_nil _).symm⟩
      | statusErr code =>
        by_cases h0 : dialog.length = 0
        · rw [stream_loop_step_opened_exhaust encFor model sys message
            chat_mode svc n_before fuel attempt dialog vars items code _
            vars' hk hs hres h0]
          exact ⟨rfl, rfl, [], Or.inl rfl, (List.append_nil _).symm⟩
        · by_cases hc429 : code = "429"
          · subst hc429
            rw [stream_loop_step_opened_429 encFor model sys message
              chat_mode svc n_before fuel attempt dialog vars items _
              vars' hk hs hres h0]
            exact ⟨rfl, rfl, [], Or.inl rfl, (List.append_nil _).symm⟩
          · rw [stream_loop_step_opened_cut encFor model sys message
              chat_mode svc n_before fuel attempt dialog vars items code _
              vars' hk hs hres h0 hc429]
            exact final_yield_shape _ _ _ _

theorem claim_C6_witness :
    stream_loop enc_for_ex "claude-3-5-sonnet-20240620" "p" "hi"
      "assistant" (fun _ => .openErr (.statusErr "403")) 1 3 0
      [⟨"u", "b"⟩] ⟨none, none, none⟩
      = ⟨[], [], 2, .raised .historyExhausted⟩
    ∧ (stream_loop enc_for_ex "claude-3-5-sonnet-20240620" "p" "hi"
        "assistant" (fun _ => .opened [.contentBlockDelta "a"] .done) 1 3
        0 [⟨"u", "b"⟩] ⟨none, none, none⟩).calls = 1 := by
  constructor
  · have h := (claim_C6_amended enc_for_ex "claude-3-5-sonnet-20240620"
      "p" "hi" "assistant" (fun _ => .openErr (.statusErr "403")) 1 2 0
      [⟨"u", "b"⟩] ⟨none, none, none⟩ (by decide)).1 (by decide) rfl
    exact h.trans (by decide)
  · exact ((claim_C6_amended enc_for_ex "claude-3-5-sonnet-20240620" "p"
      "hi" "assistant" (fun _ => .opened [.contentBlockDelta "a"] .done)
      1 2 0 [⟨"u", "b"⟩] ⟨none, none, none⟩ (by decide)).2.2.2
      [.contentBlockDelta "a"] .done rfl).1

end AnthropicUtils
